import Mathlib

/-!
Shallow embedding of the `linalg` C++ library (fixed-size vectors Vec2/Vec3/Vec4
and square matrices Mat3/Mat4 over a floating-point scalar, plus the free
functions composing them).  Scalars are modelled by exact arithmetic: a general
linear ordered field for the purely algebraic operations (instantiated at ℚ in
witnesses), and ℝ for the operations that use `std::sqrt`.
-/

namespace linalg

/-- 2D vector with components `x`, `y` (from `include/Vec2.hpp`). -/
structure Vec2 (α : Type) where
  x : α
  y : α
deriving DecidableEq

/-- 3D vector with components `x`, `y`, `z` (from `include/linalg/Vec3.hpp`). -/
structure Vec3 (α : Type) where
  x : α
  y : α
  z : α
deriving DecidableEq

/-- 4D vector with components `x`, `y`, `z`, `w` (from `include/Vec4.hpp`). -/
structure Vec4 (α : Type) where
  x : α
  y : α
  z : α
  w : α
deriving DecidableEq

/-- 3x3 row-major matrix: `m i j` is the cell at row `i`, column `j`
(from `include/linalg/Mat3.hpp`, member `std::array<std::array<T,3>,3> m`). -/
@[ext]
structure Mat3 (α : Type) where
  m : Fin 3 → Fin 3 → α

/-- 4x4 row-major matrix: `m i j` is the cell at row `i`, column `j`
(from `include/linalg/Mat4.hpp`, member `std::array<std::array<T,4>,4> m`). -/
@[ext]
structure Mat4 (α : Type) where
  m : Fin 4 → Fin 4 → α

variable {α : Type} [LinearOrderedField α]

/-- Helper assembling a `Mat3` from its nine cells in row-major order, used to
translate the source's cell-by-cell assignments. -/
def Mat3.fromEntries (e00 e01 e02 e10 e11 e12 e20 e21 e22 : α) : Mat3 α :=
  ⟨fun i j =>
    if i = 0 then (if j = 0 then e00 else if j = 1 then e01 else e02)
    else if i = 1 then (if j = 0 then e10 else if j = 1 then e11 else e12)
    else (if j = 0 then e20 else if j = 1 then e21 else e22)⟩

/-- Helper assembling a `Mat4` from its sixteen cells in row-major order. -/
def Mat4.fromEntries (e00 e01 e02 e03 e10 e11 e12 e13 e20 e21 e22 e23 e30 e31 e32 e33 : α) :
    Mat4 α :=
  ⟨fun i j =>
    if i = 0 then (if j = 0 then e00 else if j = 1 then e01 else if j = 2 then e02 else e03)
    else if i = 1 then (if j = 0 then e10 else if j = 1 then e11 else if j = 2 then e12 else e13)
    else if i = 2 then (if j = 0 then e20 else if j = 1 then e21 else if j = 2 then e22 else e23)
    else (if j = 0 then e30 else if j = 1 then e31 else if j = 2 then e32 else e33)⟩

/-- `Mat3()` default constructor: the identity matrix (`Mat3.hpp` line 34). -/
def Mat3.identity : Mat3 α :=
  Mat3.fromEntries 1 0 0 0 1 0 0 0 1

/-- `Mat4()` default constructor: the identity matrix (`Mat4.hpp` lines 35-36). -/
def Mat4.identity : Mat4 α :=
  Mat4.fromEntries 1 0 0 0 0 1 0 0 0 0 1 0 0 0 0 1

/-- `Mat3::operator*` (matrix product, `Mat3.hpp` lines 200-209): each result
cell is the row-by-column three-term dot product. -/
def Mat3.mul (A B : Mat3 α) : Mat3 α :=
  ⟨fun i j => A.m i 0 * B.m 0 j + A.m i 1 * B.m 1 j + A.m i 2 * B.m 2 j⟩

/-- `Mat4::operator*` (matrix product, `Mat4.hpp` lines 257-266). -/
def Mat4.mul (A B : Mat4 α) : Mat4 α :=
  ⟨fun i j => A.m i 0 * B.m 0 j + A.m i 1 * B.m 1 j + A.m i 2 * B.m 2 j + A.m i 3 * B.m 3 j⟩

/-- `Mat3::operator==` (`Mat3.hpp` lines 120-129): loops over the nine cells and
returns false as soon as one pair differs, i.e. true iff all cells are equal. -/
def Mat3.eqb [DecidableEq α] (A B : Mat3 α) : Bool :=
  decide (∀ i j, A.m i j = B.m i j)

/-- `Mat4::operator==` (`Mat4.hpp` lines 134-143). -/
def Mat4.eqb [DecidableEq α] (A B : Mat4 α) : Bool :=
  decide (∀ i j, A.m i j = B.m i j)

/-- `Mat4::Mat4(const Mat3&)` (`Mat4.hpp` lines 70-79): the member `m{}` is
zero-initialized, the double loop copies the 3x3 block into the top left, then
the last column and last row are set to `0,0,0` and the corner to `1`. -/
def Mat4.ofMat3 (A : Mat3 α) : Mat4 α :=
  Mat4.fromEntries
    (A.m 0 0) (A.m 0 1) (A.m 0 2) 0
    (A.m 1 0) (A.m 1 1) (A.m 1 2) 0
    (A.m 2 0) (A.m 2 1) (A.m 2 2) 0
    0 0 0 1

/-- `Mat4::topLeft3x3` (`Mat4.hpp` lines 284-286): builds a `Mat3` from the nine
top-left cells. -/
def Mat4.topLeft3x3 (M : Mat4 α) : Mat3 α :=
  Mat3.fromEntries
    (M.m 0 0) (M.m 0 1) (M.m 0 2)
    (M.m 1 0) (M.m 1 1) (M.m 1 2)
    (M.m 2 0) (M.m 2 1) (M.m 2 2)

/-- `Vec2::operator[] const` (`Vec2.hpp` lines 61-70): switch on the index,
returning `x` for 0 and `y` for 1; any other index throws `std::out_of_range`,
modelled by `none`.  The index is a C++ `int`, modelled by `ℤ`. -/
def Vec2.getIdx (v : Vec2 α) (i : ℤ) : Option α :=
  if i = 0 then some v.x else if i = 1 then some v.y else none

/-- `Vec2::operator[]` non-const (`Vec2.hpp` lines 78-86): returns a reference to
`x` for 0 and `y` for 1, else throws `std::out_of_range`.  Writing value `a`
through that reference is modelled as producing the updated vector. -/
def Vec2.setIdx (v : Vec2 α) (i : ℤ) (a : α) : Option (Vec2 α) :=
  if i = 0 then some { v with x := a } else if i = 1 then some { v with y := a } else none

/-- `Vec3::operator[] const` (`Vec3.hpp` lines 66-77). -/
def Vec3.getIdx (v : Vec3 α) (i : ℤ) : Option α :=
  if i = 0 then some v.x else if i = 1 then some v.y else if i = 2 then some v.z else none

/-- `Vec3::operator[]` non-const (`Vec3.hpp` lines 86-97), write form. -/
def Vec3.setIdx (v : Vec3 α) (i : ℤ) (a : α) : Option (Vec3 α) :=
  if i = 0 then some { v with x := a }
  else if i = 1 then some { v with y := a }
  else if i = 2 then some { v with z := a }
  else none

/-- `Vec4::operator[] const` (`Vec4.hpp` lines 67-80). -/
def Vec4.getIdx (v : Vec4 α) (i : ℤ) : Option α :=
  if i = 0 then some v.x
  else if i = 1 then some v.y
  else if i = 2 then some v.z
  else if i = 3 then some v.w
  else none

/-- `Vec4::operator[]` non-const (`Vec4.hpp` lines 88-102), write form. -/
def Vec4.setIdx (v : Vec4 α) (i : ℤ) (a : α) : Option (Vec4 α) :=
  if i = 0 then some { v with x := a }
  else if i = 1 then some { v with y := a }
  else if i = 2 then some { v with z := a }
  else if i = 3 then some { v with w := a }
  else none

/-- `Vec2::isApprox` (`Vec2.hpp`): every component's absolute difference is
strictly less than `epsilon`. -/
def Vec2.isApprox (a b : Vec2 α) (eps : α) : Bool :=
  decide (|a.x - b.x| < eps) && decide (|a.y - b.y| < eps)

/-- `Vec3::isApprox` (`Vec3.hpp` lines 270-272): conjunction of strict
`std::fabs(diff) < epsilon` component tests. -/
def Vec3.isApprox (a b : Vec3 α) (eps : α) : Bool :=
  decide (|a.x - b.x| < eps) && decide (|a.y - b.y| < eps) && decide (|a.z - b.z| < eps)

/-- `Vec4::isApprox` (`Vec4.hpp` lines 246-250). -/
def Vec4.isApprox (a b : Vec4 α) (eps : α) : Bool :=
  decide (|a.x - b.x| < eps) && decide (|a.y - b.y| < eps) && decide (|a.z - b.z| < eps) &&
    decide (|a.w - b.w| < eps)

/-- `Mat3::isApprox` (`Mat3.hpp` lines 229-238): the loop returns false as soon
as a cell has `std::abs(diff) > epsilon`, so the result is true iff no cell
differs by more than `epsilon`. -/
def Mat3.isApprox (A B : Mat3 α) (eps : α) : Bool :=
  decide (∀ i j, ¬(|A.m i j - B.m i j| > eps))

/-- `Mat4::isApprox` (`Mat4.hpp` lines 296-305). -/
def Mat4.isApprox (A B : Mat4 α) (eps : α) : Bool :=
  decide (∀ i j, ¬(|A.m i j - B.m i j| > eps))

/-- Single guarded cell write of the `Mat4` nested-initializer-list constructor
(`Mat4.hpp` lines 52-64): `if(i < 4 && j < 4) m[i][j] = value;`.  Writes beyond
the 4x4 bound leave the matrix unchanged. -/
def Mat4.setCell (M : Mat4 α) (i j : ℕ) (v : α) : Mat4 α :=
  if i < 4 ∧ j < 4 then ⟨fun a b => if a.val = i ∧ b.val = j then v else M.m a b⟩ else M

/-- Inner loop of the `Mat4` nested-list constructor: writes the values of one
row at column positions `j, j+1, ...` of row `i` (each through the bound
guard), incrementing `j` for every value. -/
def Mat4.writeRowAux (M : Mat4 α) (i j : ℕ) : List α → Mat4 α
  | [] => M
  | v :: rest => Mat4.writeRowAux (M.setCell i j v) i (j + 1) rest

/-- Outer loop of the `Mat4` nested-list constructor: writes the rows at row
positions `i, i+1, ...`, incrementing `i` for every row. -/
def Mat4.ofListAux (M : Mat4 α) (i : ℕ) : List (List α) → Mat4 α
  | [] => M
  | row :: rest => Mat4.ofListAux (M.writeRowAux i 0 row) (i + 1) rest

/-- `Mat4::Mat4(std::initializer_list<std::initializer_list<T>>)` (`Mat4.hpp`
lines 52-64).  The member `std::array<std::array<T,4>,4> m{}` is
value-initialized (all cells zero) because this constructor does not mention
`m` in its initializer list; the loops then write the listed values through the
`i < 4 && j < 4` guard. -/
def Mat4.ofList (l : List (List α)) : Mat4 α :=
  Mat4.ofListAux ⟨fun _ _ => 0⟩ 0 l

/-- Single cell write of the `Mat3` nested-initializer-list constructor
(`Mat3.hpp` lines 49-65): `m[i][j] = value;`.  The source performs the write
unguarded; the guard here mirrors the array bound and is unreachable because
the constructor has already validated a 3-row / 3-column shape. -/
def Mat3.setCell (M : Mat3 α) (i j : ℕ) (v : α) : Mat3 α :=
  if i < 3 ∧ j < 3 then ⟨fun a b => if a.val = i ∧ b.val = j then v else M.m a b⟩ else M

/-- Inner loop of the `Mat3` nested-list constructor. -/
def Mat3.writeRowAux (M : Mat3 α) (i j : ℕ) : List α → Mat3 α
  | [] => M
  | v :: rest => Mat3.writeRowAux (M.setCell i j v) i (j + 1) rest

/-- Outer loop of the `Mat3` nested-list constructor. -/
def Mat3.ofListAux (M : Mat3 α) (i : ℕ) : List (List α) → Mat3 α
  | [] => M
  | row :: rest => Mat3.ofListAux (M.writeRowAux i 0 row) (i + 1) rest

/-- The cell writes of the `Mat3` nested-list constructor, starting from the
value-initialized (all-zero) member `m{}`. -/
def Mat3.ofListRaw (l : List (List α)) : Mat3 α :=
  Mat3.ofListAux ⟨fun _ _ => 0⟩ 0 l

/-- `Mat3::Mat3(std::initializer_list<std::initializer_list<T>>)` (`Mat3.hpp`
lines 49-65): throws `std::invalid_argument` unless the list has exactly 3 rows
of exactly 3 values; otherwise writes every listed value into its cell.  The
source checks each row's size just before writing it, but a failure aborts the
whole construction, so the observable result is the same. -/
def Mat3.ofList (l : List (List α)) : Except String (Mat3 α) :=
  if l.length ≠ 3 then .error "Initializer list must have 3 rows."
  else if l.any fun row => row.length ≠ 3 then .error "Each row must have 3 elements."
  else .ok (Mat3.ofListRaw l)

/-- `Mat3::determinant` (`Mat3.hpp` lines 160-163): first-row cofactor
expansion, written exactly as in the source. -/
def Mat3.determinant (A : Mat3 α) : α :=
  A.m 0 0 * (A.m 1 1 * A.m 2 2 - A.m 1 2 * A.m 2 1) -
    A.m 0 1 * (A.m 1 0 * A.m 2 2 - A.m 1 2 * A.m 2 0) +
    A.m 0 2 * (A.m 1 0 * A.m 2 1 - A.m 1 1 * A.m 2 0)

/-- The nine 2x2-minor cell expressions of the nonsingular branch of
`Mat3::inverse` (`Mat3.hpp` lines 180-190), each written before its
multiplication by `inv_det`. -/
def Mat3.invEntries (A : Mat3 α) : Mat3 α :=
  Mat3.fromEntries
    (A.m 1 1 * A.m 2 2 - A.m 1 2 * A.m 2 1)
    (-(A.m 0 1 * A.m 2 2 - A.m 0 2 * A.m 2 1))
    (A.m 0 1 * A.m 1 2 - A.m 0 2 * A.m 1 1)
    (-(A.m 1 0 * A.m 2 2 - A.m 1 2 * A.m 2 0))
    (A.m 0 0 * A.m 2 2 - A.m 0 2 * A.m 2 0)
    (-(A.m 0 0 * A.m 1 2 - A.m 0 2 * A.m 1 0))
    (A.m 1 0 * A.m 2 1 - A.m 1 1 * A.m 2 0)
    (-(A.m 0 0 * A.m 2 1 - A.m 0 1 * A.m 2 0))
    (A.m 0 0 * A.m 1 1 - A.m 0 1 * A.m 1 0)

/-- `Mat3::inverse` (`Mat3.hpp` lines 170-193): if `std::abs(det)` is below the
fixed epsilon `1e-6` (exactly 1/1000000 in this exact-arithmetic model), return
the identity matrix; otherwise each cell is the source's 2x2-minor expression
times `inv_det = 1/det`. -/
def Mat3.inverse (A : Mat3 α) : Mat3 α :=
  if |A.determinant| < (1 / 1000000 : α) then Mat3.identity
  else ⟨fun i j => A.invEntries.m i j * (1 / A.determinant)⟩

/-- The sixteen unscaled cell expressions `inv[0] .. inv[15]` of `Mat4::inverse`
(`Mat4.hpp` lines 188-234), listed row-major: flat index `k` is cell
`(k / 4, k % 4)`. -/
def Mat4.invEntries (A : Mat4 α) : Mat4 α :=
  Mat4.fromEntries
    (A.m 1 1 * A.m 2 2 * A.m 3 3 - A.m 1 1 * A.m 2 3 * A.m 3 2 - A.m 2 1 * A.m 1 2 * A.m 3 3 +
      A.m 2 1 * A.m 1 3 * A.m 3 2 + A.m 3 1 * A.m 1 2 * A.m 2 3 - A.m 3 1 * A.m 1 3 * A.m 2 2)
    (-(A.m 0 1) * A.m 2 2 * A.m 3 3 + A.m 0 1 * A.m 2 3 * A.m 3 2 + A.m 2 1 * A.m 0 2 * A.m 3 3 -
      A.m 2 1 * A.m 0 3 * A.m 3 2 - A.m 3 1 * A.m 0 2 * A.m 2 3 + A.m 3 1 * A.m 0 3 * A.m 2 2)
    (A.m 0 1 * A.m 1 2 * A.m 3 3 - A.m 0 1 * A.m 1 3 * A.m 3 2 - A.m 1 1 * A.m 0 2 * A.m 3 3 +
      A.m 1 1 * A.m 0 3 * A.m 3 2 + A.m 3 1 * A.m 0 2 * A.m 1 3 - A.m 3 1 * A.m 0 3 * A.m 1 2)
    (-(A.m 0 1) * A.m 1 2 * A.m 2 3 + A.m 0 1 * A.m 1 3 * A.m 2 2 + A.m 1 1 * A.m 0 2 * A.m 2 3 -
      A.m 1 1 * A.m 0 3 * A.m 2 2 - A.m 2 1 * A.m 0 2 * A.m 1 3 + A.m 2 1 * A.m 0 3 * A.m 1 2)
    (-(A.m 1 0) * A.m 2 2 * A.m 3 3 + A.m 1 0 * A.m 2 3 * A.m 3 2 + A.m 2 0 * A.m 1 2 * A.m 3 3 -
      A.m 2 0 * A.m 1 3 * A.m 3 2 - A.m 3 0 * A.m 1 2 * A.m 2 3 + A.m 3 0 * A.m 1 3 * A.m 2 2)
    (A.m 0 0 * A.m 2 2 * A.m 3 3 - A.m 0 0 * A.m 2 3 * A.m 3 2 - A.m 2 0 * A.m 0 2 * A.m 3 3 +
      A.m 2 0 * A.m 0 3 * A.m 3 2 + A.m 3 0 * A.m 0 2 * A.m 2 3 - A.m 3 0 * A.m 0 3 * A.m 2 2)
    (-(A.m 0 0) * A.m 1 2 * A.m 3 3 + A.m 0 0 * A.m 1 3 * A.m 3 2 + A.m 1 0 * A.m 0 2 * A.m 3 3 -
      A.m 1 0 * A.m 0 3 * A.m 3 2 - A.m 3 0 * A.m 0 2 * A.m 1 3 + A.m 3 0 * A.m 0 3 * A.m 1 2)
    (A.m 0 0 * A.m 1 2 * A.m 2 3 - A.m 0 0 * A.m 1 3 * A.m 2 2 - A.m 1 0 * A.m 0 2 * A.m 2 3 +
      A.m 1 0 * A.m 0 3 * A.m 2 2 + A.m 2 0 * A.m 0 2 * A.m 1 3 - A.m 2 0 * A.m 0 3 * A.m 1 2)
    (A.m 1 0 * A.m 2 1 * A.m 3 3 - A.m 1 0 * A.m 2 3 * A.m 3 1 - A.m 2 0 * A.m 1 1 * A.m 3 3 +
      A.m 2 0 * A.m 1 3 * A.m 3 1 + A.m 3 0 * A.m 1 1 * A.m 2 3 - A.m 3 0 * A.m 1 3 * A.m 2 1)
    (-(A.m 0 0) * A.m 2 1 * A.m 3 3 + A.m 0 0 * A.m 2 3 * A.m 3 1 + A.m 2 0 * A.m 0 1 * A.m 3 3 -
      A.m 2 0 * A.m 0 3 * A.m 3 1 - A.m 3 0 * A.m 0 1 * A.m 2 3 + A.m 3 0 * A.m 0 3 * A.m 2 1)
    (A.m 0 0 * A.m 1 1 * A.m 3 3 - A.m 0 0 * A.m 1 3 * A.m 3 1 - A.m 1 0 * A.m 0 1 * A.m 3 3 +
      A.m 1 0 * A.m 0 3 * A.m 3 1 + A.m 3 0 * A.m 0 1 * A.m 1 3 - A.m 3 0 * A.m 0 3 * A.m 1 1)
    (-(A.m 0 0) * A.m 1 1 * A.m 2 3 + A.m 0 0 * A.m 1 3 * A.m 2 1 + A.m 1 0 * A.m 0 1 * A.m 2 3 -
      A.m 1 0 * A.m 0 3 * A.m 2 1 - A.m 2 0 * A.m 0 1 * A.m 1 3 + A.m 2 0 * A.m 0 3 * A.m 1 1)
    (-(A.m 1 0) * A.m 2 1 * A.m 3 2 + A.m 1 0 * A.m 2 2 * A.m 3 1 + A.m 2 0 * A.m 1 1 * A.m 3 2 -
      A.m 2 0 * A.m 1 2 * A.m 3 1 - A.m 3 0 * A.m 1 1 * A.m 2 2 + A.m 3 0 * A.m 1 2 * A.m 2 1)
    (A.m 0 0 * A.m 2 1 * A.m 3 2 - A.m 0 0 * A.m 2 2 * A.m 3 1 - A.m 2 0 * A.m 0 1 * A.m 3 2 +
      A.m 2 0 * A.m 0 2 * A.m 3 1 + A.m 3 0 * A.m 0 1 * A.m 2 2 - A.m 3 0 * A.m 0 2 * A.m 2 1)
    (-(A.m 0 0) * A.m 1 1 * A.m 3 2 + A.m 0 0 * A.m 1 2 * A.m 3 1 + A.m 1 0 * A.m 0 1 * A.m 3 2 -
      A.m 1 0 * A.m 0 2 * A.m 3 1 - A.m 3 0 * A.m 0 1 * A.m 1 2 + A.m 3 0 * A.m 0 2 * A.m 1 1)
    (A.m 0 0 * A.m 1 1 * A.m 2 2 - A.m 0 0 * A.m 1 2 * A.m 2 1 - A.m 1 0 * A.m 0 1 * A.m 2 2 +
      A.m 1 0 * A.m 0 2 * A.m 2 1 + A.m 2 0 * A.m 0 1 * A.m 1 2 - A.m 2 0 * A.m 0 2 * A.m 1 1)

/-- The determinant local variable of `Mat4::inverse` (`Mat4.hpp` line 236):
`det = m00*inv[0] + m01*inv[4] + m02*inv[8] + m03*inv[12]`, flat indices 0, 4,
8, 12 being column 0 of the unscaled entry matrix. -/
def Mat4.det (A : Mat4 α) : α :=
  A.m 0 0 * A.invEntries.m 0 0 + A.m 0 1 * A.invEntries.m 1 0 +
    A.m 0 2 * A.invEntries.m 2 0 + A.m 0 3 * A.invEntries.m 3 0

/-- `Mat4::inverse` (`Mat4.hpp` lines 185-249): if the determinant is exactly
zero, return the identity matrix `Mat4{}`; otherwise every unscaled entry is
multiplied by `1/det`. -/
def Mat4.inverse (A : Mat4 α) : Mat4 α :=
  if A.det = 0 then Mat4.identity
  else ⟨fun i j => A.invEntries.m i j * (1 / A.det)⟩

/-- Mathematical cofactor of a 3x3 matrix (spec-side definition, independent of
the source formulas): sign `(-1)^(i+j)` times the determinant of the 2x2 minor
obtained by deleting row `i` and column `j`. -/
def Mat3.cof (A : Mat3 α) (i j : Fin 3) : α :=
  (-1 : α) ^ (i.val + j.val) *
    (A.m (i.succAbove 0) (j.succAbove 0) * A.m (i.succAbove 1) (j.succAbove 1) -
      A.m (i.succAbove 0) (j.succAbove 1) * A.m (i.succAbove 1) (j.succAbove 0))

/-- Mathematical cofactor of a 4x4 matrix (spec-side definition): sign
`(-1)^(i+j)` times the determinant of the 3x3 minor obtained by deleting row
`i` and column `j`. -/
def Mat4.cof (A : Mat4 α) (i j : Fin 4) : α :=
  (-1 : α) ^ (i.val + j.val) *
    (Mat3.mk fun a b => A.m (i.succAbove a) (j.succAbove b)).determinant

/-- First-row cofactor combination of a 4x4 matrix (spec-side definition of the
determinant used by the claim). -/
def Mat4.firstRowCofactorDet (A : Mat4 α) : α :=
  A.m 0 0 * A.cof 0 0 + A.m 0 1 * A.cof 0 1 + A.m 0 2 * A.cof 0 2 + A.m 0 3 * A.cof 0 3

/-- `Vec2::squaredLength` (`Vec2.hpp` line 184): `x*x + y*y`. -/
def Vec2.squaredLength (v : Vec2 α) : α := v.x * v.x + v.y * v.y

/-- `Vec3::squaredLength` (`Vec3.hpp` line 207): `x*x + y*y + z*z`. -/
def Vec3.squaredLength (v : Vec3 α) : α := v.x * v.x + v.y * v.y + v.z * v.z

/-- `Vec4::squaredLength` (`Vec4.hpp` line 214): `x*x + y*y + z*z + w*w`. -/
def Vec4.squaredLength (v : Vec4 α) : α := v.x * v.x + v.y * v.y + v.z * v.z + v.w * v.w

/-- `Vec2::operator/` by a scalar (`Vec2.hpp`): component-wise division. -/
def Vec2.divScalar (v : Vec2 α) (s : α) : Vec2 α := ⟨v.x / s, v.y / s⟩

/-- `Vec3::operator/` by a scalar (`Vec3.hpp` lines 173-175). -/
def Vec3.divScalar (v : Vec3 α) (s : α) : Vec3 α := ⟨v.x / s, v.y / s, v.z / s⟩

/-- `Vec4::operator/` by a scalar (`Vec4.hpp`). -/
def Vec4.divScalar (v : Vec4 α) (s : α) : Vec4 α := ⟨v.x / s, v.y / s, v.z / s, v.w / s⟩

/-- `Vec3::operator+` (`Vec3.hpp` line 112): component-wise addition. -/
def Vec3.add (a b : Vec3 α) : Vec3 α := ⟨a.x + b.x, a.y + b.y, a.z + b.z⟩

/-- `Vec3::operator-` binary (`Vec3.hpp` line 133): component-wise subtraction. -/
def Vec3.sub (a b : Vec3 α) : Vec3 α := ⟨a.x - b.x, a.y - b.y, a.z - b.z⟩

/-- `operator*(T scalar, const Vec3&)` (`linalg.hpp` lines 204-206): each
component times the scalar. -/
def scalarMul (s : α) (v : Vec3 α) : Vec3 α := ⟨v.x * s, v.y * s, v.z * s⟩

/-- `dot` for Vec3 (`linalg.hpp` line 50): sum of component products. -/
def dot3 (a b : Vec3 α) : α := a.x * b.x + a.y * b.y + a.z * b.z

/-- `Vec2::length` (`Vec2.hpp` line 190): `std::sqrt(squaredLength())`,
modelled over ℝ. -/
noncomputable def Vec2.length (v : Vec2 ℝ) : ℝ := Real.sqrt v.squaredLength

/-- `Vec3::length` (`Vec3.hpp` line 213). -/
noncomputable def Vec3.length (v : Vec3 ℝ) : ℝ := Real.sqrt v.squaredLength

/-- `Vec4::length` (`Vec4.hpp` line 220). -/
noncomputable def Vec4.length (v : Vec4 ℝ) : ℝ := Real.sqrt v.squaredLength

/-- `Vec2::normalized` (`Vec2.hpp` lines 196-199):
`len > 0.0 ? (*this / len) : Vec2(0.0)`. -/
noncomputable def Vec2.normalized (v : Vec2 ℝ) : Vec2 ℝ :=
  if v.length > 0 then v.divScalar v.length else ⟨0, 0⟩

/-- `Vec3::normalized` (`Vec3.hpp` lines 219-222). -/
noncomputable def Vec3.normalized (v : Vec3 ℝ) : Vec3 ℝ :=
  if v.length > 0 then v.divScalar v.length else ⟨0, 0, 0⟩

/-- `Vec4::normalized` (`Vec4.hpp` lines 227-230). -/
noncomputable def Vec4.normalized (v : Vec4 ℝ) : Vec4 ℝ :=
  if v.length > 0 then v.divScalar v.length else ⟨0, 0, 0, 0⟩

/-- Modelled from the spec: no `reflect` definition exists under src (only the
test suite calls it); spec section 4.3 gives
`reflect(incident, normal) = incident − 2·dot(incident, normal)·normal`. -/
def reflect (incident normal : Vec3 α) : Vec3 α :=
  incident.sub (scalarMul (2 * dot3 incident normal) normal)

/-- Modelled from the spec: no `refract` definition exists under src (only the
test suite calls it); spec section 4.3: `cosI = −dot(normal, incident)`,
`sin²T = eta²·(1−cosI²)`; if `sin²T > 1` (total internal reflection) the result
is `reflect(incident, normal)`; otherwise `cosT = sqrt(1−sin²T)` and the result
is `eta·incident + (eta·cosI − cosT)·normal`. -/
noncomputable def refract (incident normal : Vec3 ℝ) (eta : ℝ) : Vec3 ℝ :=
  let cosI := -(dot3 normal incident)
  let sin2T := eta ^ 2 * (1 - cosI ^ 2)
  if 1 < sin2T then reflect incident normal
  else (scalarMul eta incident).add
    (scalarMul (eta * cosI - Real.sqrt (1 - sin2T)) normal)

/-- Success test for the fallible `Mat3` constructor: true exactly when no
`std::invalid_argument` was thrown. -/
def exceptOk {ε β : Type} : Except ε β → Bool
  | .ok _ => true
  | .error _ => false

/-- `toVec3` (`linalg.hpp` line 27): drop the `w` component. -/
def toVec3 (v : Vec4 α) : Vec3 α := ⟨v.x, v.y, v.z⟩

/-- `toVec4` (`linalg.hpp` line 34): append `w = 1`. -/
def toVec4 (v : Vec3 α) : Vec4 α := ⟨v.x, v.y, v.z, 1⟩

end linalg

namespace linalg

variable {α : Type} [LinearOrderedField α]

theorem mat4_setCell_cell (M : Mat4 α) (i j : ℕ) (v : α) (a b : Fin 4) :
    (M.setCell i j v).m a b = if a.val = i ∧ b.val = j then v else M.m a b := by
  unfold Mat4.setCell
  by_cases h : i < 4 ∧ j < 4
  · rw [if_pos h]
  · have hcond : ¬(a.val = i ∧ b.val = j) := by
      rintro ⟨ha, hb⟩
      exact h ⟨ha ▸ a.isLt, hb ▸ b.isLt⟩
    rw [if_neg h, if_neg hcond]

theorem mat4_writeRowAux_cell (row : List α) :
    ∀ (M : Mat4 α) (i j : ℕ) (a b : Fin 4),
      (M.writeRowAux i j row).m a b =
        if a.val = i ∧ j ≤ b.val then row.getD (b.val - j) (M.m a b) else M.m a b := by
  induction row with
  | nil =>
    intro M i j a b
    simp [Mat4.writeRowAux]
  | cons v rest ih =>
    intro M i j a b
    rw [Mat4.writeRowAux, ih, mat4_setCell_cell]
    by_cases ha : a.val = i
    · by_cases hb : j ≤ b.val
      · by_cases hb1 : j + 1 ≤ b.val
        · have hbj : ¬(b.val = j) := by omega
          have hstep : b.val - j = (b.val - (j + 1)) + 1 := by omega
          simp only [ha, hb, hb1, hbj, and_true, and_false, true_and, if_true, if_false,
            hstep, List.getD_cons_succ]
        · have hbj : b.val = j := by omega
          have hsub : b.val - j = 0 := by omega
          simp only [ha, hb, hb1, hbj, and_true, and_false, true_and, if_true, if_false,
            hsub, List.getD_cons_zero]
          simp
      · have hb1 : ¬(j + 1 ≤ b.val) := by omega
        have hbj : ¬(b.val = j) := by omega
        simp only [ha, hb, hb1, hbj, and_true, and_false, true_and, if_false]
    · simp only [ha, false_and, if_false]

theorem mat4_ofListAux_cell (rows : List (List α)) :
    ∀ (M : Mat4 α) (i : ℕ) (a b : Fin 4),
      (Mat4.ofListAux M i rows).m a b =
        if i ≤ a.val then (rows.getD (a.val - i) []).getD b.val (M.m a b) else M.m a b := by
  induction rows with
  | nil =>
    intro M i a b
    simp [Mat4.ofListAux]
  | cons row rest ih =>
    intro M i a b
    rw [Mat4.ofListAux, ih, mat4_writeRowAux_cell]
    by_cases ha : i ≤ a.val
    · by_cases ha1 : i + 1 ≤ a.val
      · have hai : ¬(a.val = i) := by omega
        have hstep : a.val - i = (a.val - (i + 1)) + 1 := by omega
        simp only [ha, ha1, hai, false_and, if_true, if_false, hstep, List.getD_cons_succ]
      · have hai : a.val = i := by omega
        have hsub : a.val - i = 0 := by omega
        simp only [ha, ha1, hai, Nat.zero_le, and_true, true_and, if_true, if_false,
          hsub, List.getD_cons_zero, Nat.sub_zero]
        simp
    · have ha1 : ¬(i + 1 ≤ a.val) := by omega
      have hai : ¬(a.val = i) := by omega
      simp only [ha, ha1, hai, false_and, if_false]

theorem mat3_setCell_cell (M : Mat3 α) (i j : ℕ) (v : α) (a b : Fin 3) :
    (M.setCell i j v).m a b = if a.val = i ∧ b.val = j then v else M.m a b := by
  unfold Mat3.setCell
  by_cases h : i < 3 ∧ j < 3
  · rw [if_pos h]
  · have hcond : ¬(a.val = i ∧ b.val = j) := by
      rintro ⟨ha, hb⟩
      exact h ⟨ha ▸ a.isLt, hb ▸ b.isLt⟩
    rw [if_neg h, if_neg hcond]

theorem mat3_writeRowAux_cell (row : List α) :
    ∀ (M : Mat3 α) (i j : ℕ) (a b : Fin 3),
      (M.writeRowAux i j row).m a b =
        if a.val = i ∧ j ≤ b.val then row.getD (b.val - j) (M.m a b) else M.m a b := by
  induction row with
  | nil =>
    intro M i j a b
    simp [Mat3.writeRowAux]
  | cons v rest ih =>
    intro M i j a b
    rw [Mat3.writeRowAux, ih, mat3_setCell_cell]
    by_cases ha : a.val = i
    · by_cases hb : j ≤ b.val
      · by_cases hb1 : j + 1 ≤ b.val
        · have hbj : ¬(b.val = j) := by omega
          have hstep : b.val - j = (b.val - (j + 1)) + 1 := by omega
          simp only [ha, hb, hb1, hbj, and_true, and_false, true_and, if_true, if_false,
            hstep, List.getD_cons_succ]
        · have hbj : b.val = j := by omega
          have hsub : b.val - j = 0 := by omega
          simp only [ha, hb, hb1, hbj, and_true, and_false, true_and, if_true, if_false,
            hsub, List.getD_cons_zero]
          simp
      · have hb1 : ¬(j + 1 ≤ b.val) := by omega
        have hbj : ¬(b.val = j) := by omega
        simp only [ha, hb, hb1, hbj, and_true, and_false, true_and, if_false]
    · simp only [ha, false_and, if_false]

theorem mat3_ofListAux_cell (rows : List (List α)) :
    ∀ (M : Mat3 α) (i : ℕ) (a b : Fin 3),
      (Mat3.ofListAux M i rows).m a b =
        if i ≤ a.val then (rows.getD (a.val - i) []).getD b.val (M.m a b) else M.m a b := by
  induction rows with
  | nil =>
    intro M i a b
    simp [Mat3.ofListAux]
  | cons row rest ih =>
    intro M i a b
    rw [Mat3.ofListAux, ih, mat3_writeRowAux_cell]
    by_cases ha : i ≤ a.val
    · by_cases ha1 : i + 1 ≤ a.val
      · have hai : ¬(a.val = i) := by omega
        have hstep : a.val - i = (a.val - (i + 1)) + 1 := by omega
        simp only [ha, ha1, hai, false_and, if_true, if_false, hstep, List.getD_cons_succ]
      · have hai : a.val = i := by omega
        have hsub : a.val - i = 0 := by omega
        simp only [ha, ha1, hai, Nat.zero_le, and_true, true_and, if_true, if_false,
          hsub, List.getD_cons_zero, Nat.sub_zero]
        simp
    · have ha1 : ¬(i + 1 ≤ a.val) := by omega
      have hai : ¬(a.val = i) := by omega
      simp only [ha, ha1, hai, false_and, if_false]

/-- C1 (amended): For every initializer list passed to the Mat4 nested-list
constructor, cell (i, j) of the constructed matrix holds the j-th value of the
i-th row when the list provides one — so entries with row or column index
beyond the 4x4 bound are silently ignored — and every cell not covered by
the list holds 0, the value-initialized default of the member `m{}` (not the
identity-default of the default constructor). -/
theorem mat4_listctor_truncates_and_zero_fills (l : List (List ℚ)) (a b : Fin 4) :
    (Mat4.ofList l).m a b = (l.getD a.val []).getD b.val 0 := by
  rw [Mat4.ofList, mat4_ofListAux_cell]
  simp

/-- C1 counterexample: constructing a Mat4 from the single-row, single-value
list `[[5]]` leaves the uncovered diagonal cell (1, 1) at 0, not at the
identity-default value 1 that the claim asserts. -/
theorem mat4_listctor_not_identity_default :
    (Mat4.ofList [[(5 : ℚ)]]).m 1 1 = 0 ∧ (Mat4.ofList [[(5 : ℚ)]]).m 1 1 ≠ 1 := by
  have h : (Mat4.ofList [[(5 : ℚ)]]).m 1 1 = 0 := by
    rw [Mat4.ofList, mat4_ofListAux_cell]
    simp
  exact ⟨h, by rw [h]; norm_num⟩

theorem Mat3.ofList_ok_val (l : List (List α)) (hl : l.length = 3)
    (hr : ∀ row ∈ l, row.length = 3) : Mat3.ofList l = Except.ok (Mat3.ofListRaw l) := by
  have h1 : ¬(l.length ≠ 3) := by simpa using hl
  have h2 : ¬((l.any fun row => row.length ≠ 3) = true) := by
    simp only [List.any_eq_true, decide_eq_true_eq]
    rintro ⟨row, hrow, hne⟩
    exact hne (hr row hrow)
  rw [Mat3.ofList, if_neg h1, if_neg h2]

theorem Mat3.ofList_err_rowcount (l : List (List α)) (hl : l.length ≠ 3) :
    Mat3.ofList l = Except.error "Initializer list must have 3 rows." := by
  rw [Mat3.ofList, if_pos hl]

theorem Mat3.ofList_err_rowsize (l : List (List α)) (hl : l.length = 3)
    (hr : ¬∀ row ∈ l, row.length = 3) :
    Mat3.ofList l = Except.error "Each row must have 3 elements." := by
  have h1 : ¬(l.length ≠ 3) := by simpa using hl
  have h2 : (l.any fun row => row.length ≠ 3) = true := by
    simp only [List.any_eq_true, decide_eq_true_eq]
    push_neg at hr
    obtain ⟨row, hrow, hne⟩ := hr
    exact ⟨row, hrow, hne⟩
  rw [Mat3.ofList, if_neg h1, if_pos h2]

/-- C6: The Mat3 nested-list constructor signals an invalid-argument failure
exactly when the list does not consist of 3 rows of 3 values each; on an exact
3x3 shape it succeeds and cell (i, j) of the result equals the j-th value of
the i-th row. -/
theorem mat3_listctor_validates_shape (l : List (List ℚ)) :
    (exceptOk (Mat3.ofList l) = true ↔ l.length = 3 ∧ ∀ row ∈ l, row.length = 3) ∧
    (∀ M : Mat3 ℚ, Mat3.ofList l = Except.ok M →
      ∀ (i j : Fin 3), M.m i j = (l.getD i.val []).getD j.val 0) := by
  constructor
  · constructor
    · intro hok
      by_contra hcon
      rcases Classical.em (l.length = 3) with hl | hl
      · have hr : ¬∀ row ∈ l, row.length = 3 := fun h => hcon ⟨hl, h⟩
        rw [Mat3.ofList_err_rowsize l hl hr] at hok
        simp [exceptOk] at hok
      · rw [Mat3.ofList_err_rowcount l hl] at hok
        simp [exceptOk] at hok
    · rintro ⟨hl, hr⟩
      rw [Mat3.ofList_ok_val l hl hr]
      rfl
  · intro M hM i j
    rcases Classical.em (l.length = 3) with hl | hl
    · rcases Classical.em (∀ row ∈ l, row.length = 3) with hr | hr
      · rw [Mat3.ofList_ok_val l hl hr] at hM
        have hraw := Except.ok.inj hM
        rw [← hraw, Mat3.ofListRaw, mat3_ofListAux_cell]
        simp
      · rw [Mat3.ofList_err_rowsize l hl hr] at hM
        simp at hM
    · rw [Mat3.ofList_err_rowcount l hl] at hM
      simp at hM

/-- C6 witness: the exact 3x3 literal from the test suite is accepted and
cell (0, 1) holds the second value of the first row; a 2-row literal is
rejected. -/
theorem mat3_listctor_validates_shape_witness :
    (exceptOk (Mat3.ofList [[(1 : ℚ), 2, 3], [4, 5, 6], [7, 8, 9]]) = true) ∧
    ((Mat3.ofListRaw [[(1 : ℚ), 2, 3], [4, 5, 6], [7, 8, 9]]).m 0 1 = 2) ∧
    (exceptOk (Mat3.ofList [[(1 : ℚ), 2, 3], [4, 5, 6]]) = false) := by
  refine ⟨?_, ?_, ?_⟩
  · exact (mat3_listctor_validates_shape _).1.mpr
      ⟨by norm_num, by intro row hrow; fin_cases hrow <;> rfl⟩
  · have h := (mat3_listctor_validates_shape [[(1 : ℚ), 2, 3], [4, 5, 6], [7, 8, 9]]).2
      (Mat3.ofListRaw [[(1 : ℚ), 2, 3], [4, 5, 6], [7, 8, 9]]) rfl 0 1
    rw [h]
    norm_num
  · have h := (mat3_listctor_validates_shape [[(1 : ℚ), 2, 3], [4, 5, 6]]).1
    rw [Bool.eq_false_iff]
    intro hok
    have := h.mp hok
    norm_num at this

theorem fin3_succAbove_eval :
    ((0 : Fin 3).succAbove 0 = 1) ∧ ((0 : Fin 3).succAbove 1 = 2) ∧
    ((1 : Fin 3).succAbove 0 = 0) ∧ ((1 : Fin 3).succAbove 1 = 2) ∧
    ((2 : Fin 3).succAbove 0 = 0) ∧ ((2 : Fin 3).succAbove 1 = 1) := by
  refine ⟨?_, ?_, ?_, ?_, ?_, ?_⟩ <;> decide

theorem fin4_succAbove_eval :
    ((0 : Fin 4).succAbove 0 = 1) ∧ ((0 : Fin 4).succAbove 1 = 2) ∧ ((0 : Fin 4).succAbove 2 = 3) ∧
    ((1 : Fin 4).succAbove 0 = 0) ∧ ((1 : Fin 4).succAbove 1 = 2) ∧ ((1 : Fin 4).succAbove 2 = 3) ∧
    ((2 : Fin 4).succAbove 0 = 0) ∧ ((2 : Fin 4).succAbove 1 = 1) ∧ ((2 : Fin 4).succAbove 2 = 3) ∧
    ((3 : Fin 4).succAbove 0 = 0) ∧ ((3 : Fin 4).succAbove 1 = 1) ∧
    ((3 : Fin 4).succAbove 2 = 2) := by
  refine ⟨?_, ?_, ?_, ?_, ?_, ?_, ?_, ?_, ?_, ?_, ?_, ?_⟩ <;> decide

theorem fin_val_eval :
    ((0 : Fin 3).val = 0) ∧ ((1 : Fin 3).val = 1) ∧ ((2 : Fin 3).val = 2) ∧
    ((0 : Fin 4).val = 0) ∧ ((1 : Fin 4).val = 1) ∧ ((2 : Fin 4).val = 2) ∧
    ((3 : Fin 4).val = 3) := by
  refine ⟨?_, ?_, ?_, ?_, ?_, ?_, ?_⟩ <;> rfl

theorem mat3_fromEntries_cells (e00 e01 e02 e10 e11 e12 e20 e21 e22 : α) :
    ((Mat3.fromEntries e00 e01 e02 e10 e11 e12 e20 e21 e22).m 0 0 = e00) ∧
    ((Mat3.fromEntries e00 e01 e02 e10 e11 e12 e20 e21 e22).m 0 1 = e01) ∧
    ((Mat3.fromEntries e00 e01 e02 e10 e11 e12 e20 e21 e22).m 0 2 = e02) ∧
    ((Mat3.fromEntries e00 e01 e02 e10 e11 e12 e20 e21 e22).m 1 0 = e10) ∧
    ((Mat3.fromEntries e00 e01 e02 e10 e11 e12 e20 e21 e22).m 1 1 = e11) ∧
    ((Mat3.fromEntries e00 e01 e02 e10 e11 e12 e20 e21 e22).m 1 2 = e12) ∧
    ((Mat3.fromEntries e00 e01 e02 e10 e11 e12 e20 e21 e22).m 2 0 = e20) ∧
    ((Mat3.fromEntries e00 e01 e02 e10 e11 e12 e20 e21 e22).m 2 1 = e21) ∧
    ((Mat3.fromEntries e00 e01 e02 e10 e11 e12 e20 e21 e22).m 2 2 = e22) :=
  ⟨rfl, rfl, rfl, rfl, rfl, rfl, rfl, rfl, rfl⟩

theorem mat4_fromEntries_cells (e00 e01 e02 e03 e10 e11 e12 e13 e20 e21 e22 e23 e30 e31 e32 e33 : α) :
    ((Mat4.fromEntries e00 e01 e02 e03 e10 e11 e12 e13 e20 e21 e22 e23 e30 e31 e32 e33).m 0 0 = e00) ∧
    ((Mat4.fromEntries e00 e01 e02 e03 e10 e11 e12 e13 e20 e21 e22 e23 e30 e31 e32 e33).m 0 1 = e01) ∧
    ((Mat4.fromEntries e00 e01 e02 e03 e10 e11 e12 e13 e20 e21 e22 e23 e30 e31 e32 e33).m 0 2 = e02) ∧
    ((Mat4.fromEntries e00 e01 e02 e03 e10 e11 e12 e13 e20 e21 e22 e23 e30 e31 e32 e33).m 0 3 = e03) ∧
    ((Mat4.fromEntries e00 e01 e02 e03 e10 e11 e12 e13 e20 e21 e22 e23 e30 e31 e32 e33).m 1 0 = e10) ∧
    ((Mat4.fromEntries e00 e01 e02 e03 e10 e11 e12 e13 e20 e21 e22 e23 e30 e31 e32 e33).m 1 1 = e11) ∧
    ((Mat4.fromEntries e00 e01 e02 e03 e10 e11 e12 e13 e20 e21 e22 e23 e30 e31 e32 e33).m 1 2 = e12) ∧
    ((Mat4.fromEntries e00 e01 e02 e03 e10 e11 e12 e13 e20 e21 e22 e23 e30 e31 e32 e33).m 1 3 = e13) ∧
    ((Mat4.fromEntries e00 e01 e02 e03 e10 e11 e12 e13 e20 e21 e22 e23 e30 e31 e32 e33).m 2 0 = e20) ∧
    ((Mat4.fromEntries e00 e01 e02 e03 e10 e11 e12 e13 e20 e21 e22 e23 e30 e31 e32 e33).m 2 1 = e21) ∧
    ((Mat4.fromEntries e00 e01 e02 e03 e10 e11 e12 e13 e20 e21 e22 e23 e30 e31 e32 e33).m 2 2 = e22) ∧
    ((Mat4.fromEntries e00 e01 e02 e03 e10 e11 e12 e13 e20 e21 e22 e23 e30 e31 e32 e33).m 2 3 = e23) ∧
    ((Mat4.fromEntries e00 e01 e02 e03 e10 e11 e12 e13 e20 e21 e22 e23 e30 e31 e32 e33).m 3 0 = e30) ∧
    ((Mat4.fromEntries e00 e01 e02 e03 e10 e11 e12 e13 e20 e21 e22 e23 e30 e31 e32 e33).m 3 1 = e31) ∧
    ((Mat4.fromEntries e00 e01 e02 e03 e10 e11 e12 e13 e20 e21 e22 e23 e30 e31 e32 e33).m 3 2 = e32) ∧
    ((Mat4.fromEntries e00 e01 e02 e03 e10 e11 e12 e13 e20 e21 e22 e23 e30 e31 e32 e33).m 3 3 = e33) :=
  ⟨rfl, rfl, rfl, rfl, rfl, rfl, rfl, rfl, rfl, rfl, rfl, rfl, rfl, rfl, rfl, rfl⟩

theorem mat3_invEntries_eq_cof_lit (A : Mat3 α) :
    (A.invEntries.m 0 0 = A.cof 0 0) ∧
    (A.invEntries.m 0 1 = A.cof 1 0) ∧
    (A.invEntries.m 0 2 = A.cof 2 0) ∧
    (A.invEntries.m 1 0 = A.cof 0 1) ∧
    (A.invEntries.m 1 1 = A.cof 1 1) ∧
    (A.invEntries.m 1 2 = A.cof 2 1) ∧
    (A.invEntries.m 2 0 = A.cof 0 2) ∧
    (A.invEntries.m 2 1 = A.cof 1 2) ∧
    (A.invEntries.m 2 2 = A.cof 2 2) := by
  refine ⟨?_, ?_, ?_, ?_, ?_, ?_, ?_, ?_, ?_⟩ <;>
    · simp only [Mat3.invEntries, mat3_fromEntries_cells, Mat3.cof, fin3_succAbove_eval,
        fin_val_eval]
      ring

theorem mat3_invEntries_eq_cof (A : Mat3 α) (i j : Fin 3) :
    A.invEntries.m i j = A.cof j i := by
  obtain ⟨h00, h01, h02, h10, h11, h12, h20, h21, h22⟩ := mat3_invEntries_eq_cof_lit A
  fin_cases i <;> fin_cases j
  exacts [h00, h01, h02, h10, h11, h12, h20, h21, h22]

theorem mat4_invEntries_eq_cof_lit (A : Mat4 α) :
    (A.invEntries.m 0 0 = A.cof 0 0) ∧
    (A.invEntries.m 0 1 = A.cof 1 0) ∧
    (A.invEntries.m 0 2 = A.cof 2 0) ∧
    (A.invEntries.m 0 3 = A.cof 3 0) ∧
    (A.invEntries.m 1 0 = A.cof 0 1) ∧
    (A.invEntries.m 1 1 = A.cof 1 1) ∧
    (A.invEntries.m 1 2 = A.cof 2 1) ∧
    (A.invEntries.m 1 3 = A.cof 3 1) ∧
    (A.invEntries.m 2 0 = A.cof 0 2) ∧
    (A.invEntries.m 2 1 = A.cof 1 2) ∧
    (A.invEntries.m 2 2 = A.cof 2 2) ∧
    (A.invEntries.m 2 3 = A.cof 3 2) ∧
    (A.invEntries.m 3 0 = A.cof 0 3) ∧
    (A.invEntries.m 3 1 = A.cof 1 3) ∧
    (A.invEntries.m 3 2 = A.cof 2 3) ∧
    (A.invEntries.m 3 3 = A.cof 3 3) := by
  refine ⟨?_, ?_, ?_, ?_, ?_, ?_, ?_, ?_, ?_, ?_, ?_, ?_, ?_, ?_, ?_, ?_⟩ <;>
    · simp only [Mat4.invEntries, mat4_fromEntries_cells, Mat4.cof, Mat3.determinant,
        fin4_succAbove_eval, fin_val_eval]
      ring

theorem mat4_invEntries_eq_cof (A : Mat4 α) (i j : Fin 4) :
    A.invEntries.m i j = A.cof j i := by
  obtain ⟨h00, h01, h02, h03, h10, h11, h12, h13, h20, h21, h22, h23, h30, h31, h32, h33⟩ := mat4_invEntries_eq_cof_lit A
  fin_cases i <;> fin_cases j
  exacts [h00, h01, h02, h03, h10, h11, h12, h13, h20, h21, h22, h23, h30, h31, h32, h33]

/-- C2: `Mat3::inverse` returns the identity matrix whenever the absolute value
of the determinant is strictly below 1e-6 (= 1/1000000 exactly), and otherwise
every cell is the adjugate cell (the transposed mathematical cofactor) divided
by the determinant; `Mat4::inverse` returns the identity matrix exactly when
its determinant — which equals the first-row cofactor combination — is 0, and
otherwise every cell is the corresponding (transposed) cofactor scaled by
1/determinant.  Both routines are total functions: singular input yields the
identity fallback, never a signalled failure. -/
theorem inverse_singular_fallback :
    (∀ A : Mat3 ℚ,
      (|A.determinant| < 1 / 1000000 → A.inverse = Mat3.identity) ∧
      (¬(|A.determinant| < 1 / 1000000) →
        ∀ i j : Fin 3, A.inverse.m i j = A.cof j i * (1 / A.determinant))) ∧
    (∀ B : Mat4 ℚ,
      B.det = B.firstRowCofactorDet ∧
      (B.det = 0 → B.inverse = Mat4.identity) ∧
      (B.det ≠ 0 → ∀ i j : Fin 4, B.inverse.m i j = B.cof j i * (1 / B.det))) := by
  constructor
  · intro A
    constructor
    · intro h
      rw [Mat3.inverse, if_pos h]
    · intro h i j
      rw [Mat3.inverse, if_neg h]
      exact congrArg (· * (1 / A.determinant)) (mat3_invEntries_eq_cof A i j)
  · intro B
    refine ⟨?_, ?_, ?_⟩
    · rw [Mat4.det, Mat4.firstRowCofactorDet]
      rw [(mat4_invEntries_eq_cof_lit B).1,
        (mat4_invEntries_eq_cof_lit B).2.2.2.2.1,
        (mat4_invEntries_eq_cof_lit B).2.2.2.2.2.2.2.2.1,
        (mat4_invEntries_eq_cof_lit B).2.2.2.2.2.2.2.2.2.2.2.2.1]
    · intro h
      rw [Mat4.inverse, if_pos h]
    · intro h i j
      rw [Mat4.inverse, if_neg h]
      exact congrArg (· * (1 / B.det)) (mat4_invEntries_eq_cof B i j)

/-- C2 witness: the all-zero Mat3 and Mat4 (determinant 0) fall back to the
identity, while the identity matrices (determinant 1) take the
adjugate-over-determinant branch. -/
theorem inverse_singular_fallback_witness :
    ((Mat3.fromEntries (0 : ℚ) 0 0 0 0 0 0 0 0).inverse = Mat3.identity) ∧
    ((Mat3.identity : Mat3 ℚ).inverse.m 0 0 =
      (Mat3.identity : Mat3 ℚ).cof 0 0 * (1 / (Mat3.identity : Mat3 ℚ).determinant)) ∧
    ((Mat4.fromEntries (0 : ℚ) 0 0 0 0 0 0 0 0 0 0 0 0 0 0 0).inverse = Mat4.identity) ∧
    ((Mat4.identity : Mat4 ℚ).inverse.m 0 0 =
      (Mat4.identity : Mat4 ℚ).cof 0 0 * (1 / (Mat4.identity : Mat4 ℚ).det)) := by
  refine ⟨?_, ?_, ?_, ?_⟩
  · exact (inverse_singular_fallback.1 _).1
      (by norm_num [Mat3.determinant, mat3_fromEntries_cells])
  · exact (inverse_singular_fallback.1 _).2
      (by norm_num [Mat3.determinant, Mat3.identity, mat3_fromEntries_cells]) 0 0
  · exact (inverse_singular_fallback.2 _).2.1
      (by norm_num [Mat4.det, Mat4.invEntries, mat4_fromEntries_cells])
  · exact (inverse_singular_fallback.2 _).2.2
      (by norm_num [Mat4.det, Mat4.invEntries, Mat4.identity, mat4_fromEntries_cells]) 0 0

/-- C10: Lifting then dropping is a round trip: for every Vec3 `v`,
`toVec3 (toVec4 v) = v` under exact component-wise equality (the appended
`w = 1` component is discarded and `x`, `y`, `z` pass through unchanged). -/
theorem toVec3_toVec4_roundtrip : ∀ v : Vec3 ℚ, toVec3 (toVec4 v) = v := by
  intro v
  cases v
  rfl

/-- C9: Embed-then-extract is a round trip: for every Mat3 `A`, building a Mat4
from `A` (top-left 3x3 block plus homogeneous last row/column `0,0,0,1`) and
extracting `topLeft3x3` of the result yields exactly `A`. -/
theorem ofMat3_topLeft3x3_roundtrip : ∀ A : Mat3 ℚ, (Mat4.ofMat3 A).topLeft3x3 = A := by
  intro A
  ext i j
  fin_cases i <;> fin_cases j <;>
    simp [Mat4.ofMat3, Mat4.topLeft3x3, Mat3.fromEntries, Mat4.fromEntries]

/-- C7: For every matrix `M` of arity 3 or 4, `M * Identity == M` and
`Identity * M == M` hold under the exact cell-wise `==` operator, with
`Identity` the matrix with 1 on the diagonal and 0 elsewhere. -/
theorem mul_identity_eqb :
    (∀ M : Mat3 ℚ, (M.mul Mat3.identity).eqb M = true ∧ (Mat3.identity.mul M).eqb M = true) ∧
    (∀ M : Mat4 ℚ, (M.mul Mat4.identity).eqb M = true ∧ (Mat4.identity.mul M).eqb M = true) := by
  constructor
  · intro M
    constructor <;>
      · rw [Mat3.eqb, decide_eq_true_iff]
        intro i j
        fin_cases i <;> fin_cases j <;>
          simp [Mat3.mul, Mat3.identity, Mat3.fromEntries]
  · intro M
    constructor <;>
      · rw [Mat4.eqb, decide_eq_true_iff]
        intro i j
        fin_cases i <;> fin_cases j <;>
          simp [Mat4.mul, Mat4.identity, Mat4.fromEntries]

/-- C5: For every vector of arity 2, 3 or 4 and integer index `i`: in-range
indexed access returns exactly the positionally named component (x for 0, y for
1, z for 2, w for 3), identically for the read form and the write form (the
write form updates exactly that component); for `i` outside `[0, N)` both forms
signal an out-of-range failure (`none`). -/
theorem index_access_spec :
    (∀ (v : Vec2 ℚ) (a : ℚ),
      (v.getIdx 0 = some v.x ∧ v.getIdx 1 = some v.y) ∧
      (v.setIdx 0 a = some ⟨a, v.y⟩ ∧ v.setIdx 1 a = some ⟨v.x, a⟩) ∧
      (∀ i : ℤ, i < 0 ∨ 2 ≤ i → v.getIdx i = none ∧ v.setIdx i a = none)) ∧
    (∀ (v : Vec3 ℚ) (a : ℚ),
      (v.getIdx 0 = some v.x ∧ v.getIdx 1 = some v.y ∧ v.getIdx 2 = some v.z) ∧
      (v.setIdx 0 a = some ⟨a, v.y, v.z⟩ ∧ v.setIdx 1 a = some ⟨v.x, a, v.z⟩ ∧
        v.setIdx 2 a = some ⟨v.x, v.y, a⟩) ∧
      (∀ i : ℤ, i < 0 ∨ 3 ≤ i → v.getIdx i = none ∧ v.setIdx i a = none)) ∧
    (∀ (v : Vec4 ℚ) (a : ℚ),
      (v.getIdx 0 = some v.x ∧ v.getIdx 1 = some v.y ∧ v.getIdx 2 = some v.z ∧
        v.getIdx 3 = some v.w) ∧
      (v.setIdx 0 a = some ⟨a, v.y, v.z, v.w⟩ ∧ v.setIdx 1 a = some ⟨v.x, a, v.z, v.w⟩ ∧
        v.setIdx 2 a = some ⟨v.x, v.y, a, v.w⟩ ∧ v.setIdx 3 a = some ⟨v.x, v.y, v.z, a⟩) ∧
      (∀ i : ℤ, i < 0 ∨ 4 ≤ i → v.getIdx i = none ∧ v.setIdx i a = none)) := by
  refine ⟨fun v a => ⟨⟨rfl, rfl⟩, ⟨rfl, rfl⟩, fun i hi => ?_⟩,
          fun v a => ⟨⟨rfl, rfl, rfl⟩, ⟨rfl, rfl, rfl⟩, fun i hi => ?_⟩,
          fun v a => ⟨⟨rfl, rfl, rfl, rfl⟩, ⟨rfl, rfl, rfl, rfl⟩, fun i hi => ?_⟩⟩
  · have h0 : i ≠ 0 := by omega
    have h1 : i ≠ 1 := by omega
    simp [Vec2.getIdx, Vec2.setIdx, h0, h1]
  · have h0 : i ≠ 0 := by omega
    have h1 : i ≠ 1 := by omega
    have h2 : i ≠ 2 := by omega
    simp [Vec3.getIdx, Vec3.setIdx, h0, h1, h2]
  · have h0 : i ≠ 0 := by omega
    have h1 : i ≠ 1 := by omega
    have h2 : i ≠ 2 := by omega
    have h3 : i ≠ 3 := by omega
    simp [Vec4.getIdx, Vec4.setIdx, h0, h1, h2, h3]

/-- C5 witness: concrete out-of-range accesses fail on every arity. -/
theorem index_access_spec_witness :
    ((⟨1, 2⟩ : Vec2 ℚ).getIdx 5 = none ∧ (⟨1, 2⟩ : Vec2 ℚ).setIdx 5 9 = none) ∧
    ((⟨1, 2, 3⟩ : Vec3 ℚ).getIdx (-1) = none ∧ (⟨1, 2, 3⟩ : Vec3 ℚ).setIdx (-1) 9 = none) ∧
    ((⟨1, 2, 3, 4⟩ : Vec4 ℚ).getIdx 4 = none ∧ (⟨1, 2, 3, 4⟩ : Vec4 ℚ).setIdx 4 9 = none) :=
  ⟨(index_access_spec.1 ⟨1, 2⟩ 9).2.2 5 (Or.inr (by norm_num)),
   (index_access_spec.2.1 ⟨1, 2, 3⟩ 9).2.2 (-1) (Or.inl (by norm_num)),
   (index_access_spec.2.2 ⟨1, 2, 3, 4⟩ 9).2.2 4 (Or.inr (by norm_num))⟩

/-- C4: Approximate equality is asymmetric between vectors and matrices: vector
`isApprox` is true iff every component's absolute difference is strictly less
than epsilon (a difference exactly equal to epsilon yields false), while matrix
`isApprox` is true iff every cell's absolute difference is at most epsilon (a
difference exactly equal to epsilon still yields true). -/
theorem isApprox_vector_strict_matrix_loose :
    (∀ (a b : Vec2 ℚ) (eps : ℚ),
      a.isApprox b eps = true ↔ |a.x - b.x| < eps ∧ |a.y - b.y| < eps) ∧
    (∀ (a b : Vec3 ℚ) (eps : ℚ),
      a.isApprox b eps = true ↔ |a.x - b.x| < eps ∧ |a.y - b.y| < eps ∧ |a.z - b.z| < eps) ∧
    (∀ (a b : Vec4 ℚ) (eps : ℚ),
      a.isApprox b eps = true ↔
        |a.x - b.x| < eps ∧ |a.y - b.y| < eps ∧ |a.z - b.z| < eps ∧ |a.w - b.w| < eps) ∧
    (∀ (A B : Mat3 ℚ) (eps : ℚ),
      A.isApprox B eps = true ↔ ∀ i j, |A.m i j - B.m i j| ≤ eps) ∧
    (∀ (A B : Mat4 ℚ) (eps : ℚ),
      A.isApprox B eps = true ↔ ∀ i j, |A.m i j - B.m i j| ≤ eps) ∧
    (∀ (a b : Vec2 ℚ) (eps : ℚ), |a.x - b.x| = eps → a.isApprox b eps = false) ∧
    (∀ (a b : Vec3 ℚ) (eps : ℚ), |a.x - b.x| = eps → a.isApprox b eps = false) ∧
    (∀ (a b : Vec4 ℚ) (eps : ℚ), |a.x - b.x| = eps → a.isApprox b eps = false) ∧
    (∀ (A B : Mat3 ℚ) (eps : ℚ),
      (∀ i j, |A.m i j - B.m i j| ≤ eps) → A.isApprox B eps = true) ∧
    (∀ (A B : Mat4 ℚ) (eps : ℚ),
      (∀ i j, |A.m i j - B.m i j| ≤ eps) → A.isApprox B eps = true) := by
  refine ⟨fun a b eps => ?_, fun a b eps => ?_, fun a b eps => ?_,
          fun A B eps => ?_, fun A B eps => ?_,
          fun a b eps h => ?_, fun a b eps h => ?_, fun a b eps h => ?_,
          fun A B eps h => ?_, fun A B eps h => ?_⟩
  · simp [Vec2.isApprox, and_assoc]
  · simp [Vec3.isApprox, and_assoc]
  · simp [Vec4.isApprox, and_assoc]
  · simp [Mat3.isApprox, not_lt]
  · simp [Mat4.isApprox, not_lt]
  · simp [Vec2.isApprox, h]
  · simp [Vec3.isApprox, h]
  · simp [Vec4.isApprox, h]
  · simpa [Mat3.isApprox, not_lt] using h
  · simpa [Mat4.isApprox, not_lt] using h

/-- C4 witness: a component gap exactly equal to epsilon makes vector
`isApprox` false on every arity, while a cell gap exactly equal to epsilon
leaves matrix `isApprox` true. -/
theorem isApprox_vector_strict_matrix_loose_witness :
    (Vec2.isApprox ⟨1, 0⟩ ⟨0, 0⟩ (1 : ℚ) = false) ∧
    (Vec3.isApprox ⟨1, 0, 0⟩ ⟨0, 0, 0⟩ (1 : ℚ) = false) ∧
    (Vec4.isApprox ⟨1, 0, 0, 0⟩ ⟨0, 0, 0, 0⟩ (1 : ℚ) = false) ∧
    (Mat3.isApprox Mat3.identity (Mat3.fromEntries 0 0 0 0 0 0 0 0 0) (1 : ℚ) = true) ∧
    (Mat4.isApprox Mat4.identity
      (Mat4.fromEntries 0 0 0 0 0 0 0 0 0 0 0 0 0 0 0 0) (1 : ℚ) = true) :=
  ⟨isApprox_vector_strict_matrix_loose.2.2.2.2.2.1 ⟨1, 0⟩ ⟨0, 0⟩ 1 (by norm_num),
   isApprox_vector_strict_matrix_loose.2.2.2.2.2.2.1 ⟨1, 0, 0⟩ ⟨0, 0, 0⟩ 1 (by norm_num),
   isApprox_vector_strict_matrix_loose.2.2.2.2.2.2.2.1 ⟨1, 0, 0, 0⟩ ⟨0, 0, 0, 0⟩ 1 (by norm_num),
   isApprox_vector_strict_matrix_loose.2.2.2.2.2.2.2.2.1 _ _ 1
     (by intro i j; fin_cases i <;> fin_cases j <;>
           norm_num [Mat3.identity, Mat3.fromEntries, Fin.ext_iff]),
   isApprox_vector_strict_matrix_loose.2.2.2.2.2.2.2.2.2 _ _ 1
     (by intro i j; fin_cases i <;> fin_cases j <;>
           norm_num [Mat4.identity, Mat4.fromEntries, Fin.ext_iff])⟩

/-- C8: For every vector of arity 2, 3 or 4 over ℝ: if the length is positive,
the normalized vector has length exactly 1 (the exact-arithmetic form of "1.0
within floating tolerance"); if the length is exactly 0, `normalized` returns
the all-zero vector by taking the guard's else-branch, so no division by zero
is performed. -/
theorem normalized_unit_or_zero :
    (∀ v : Vec2 ℝ, (0 < v.length → v.normalized.length = 1) ∧
      (v.length = 0 → v.normalized = ⟨0, 0⟩)) ∧
    (∀ v : Vec3 ℝ, (0 < v.length → v.normalized.length = 1) ∧
      (v.length = 0 → v.normalized = ⟨0, 0, 0⟩)) ∧
    (∀ v : Vec4 ℝ, (0 < v.length → v.normalized.length = 1) ∧
      (v.length = 0 → v.normalized = ⟨0, 0, 0, 0⟩)) := by
  refine ⟨fun v => ⟨fun h => ?_, fun h => ?_⟩,
          fun v => ⟨fun h => ?_, fun h => ?_⟩,
          fun v => ⟨fun h => ?_, fun h => ?_⟩⟩
  · have hs : 0 < v.squaredLength := Real.sqrt_pos.mp h
    have hL : v.length * v.length = v.squaredLength :=
      Real.mul_self_sqrt (le_of_lt hs)
    have hexp : (v.divScalar v.length).squaredLength =
        v.squaredLength / (v.length * v.length) := by
      simp only [Vec2.divScalar, Vec2.squaredLength]
      ring
    rw [Vec2.normalized, if_pos h, Vec2.length, hexp, hL,
      div_self (ne_of_gt hs), Real.sqrt_one]
  · rw [Vec2.normalized, if_neg (by rw [h]; exact lt_irrefl 0)]
  · have hs : 0 < v.squaredLength := Real.sqrt_pos.mp h
    have hL : v.length * v.length = v.squaredLength :=
      Real.mul_self_sqrt (le_of_lt hs)
    have hexp : (v.divScalar v.length).squaredLength =
        v.squaredLength / (v.length * v.length) := by
      simp only [Vec3.divScalar, Vec3.squaredLength]
      ring
    rw [Vec3.normalized, if_pos h, Vec3.length, hexp, hL,
      div_self (ne_of_gt hs), Real.sqrt_one]
  · rw [Vec3.normalized, if_neg (by rw [h]; exact lt_irrefl 0)]
  · have hs : 0 < v.squaredLength := Real.sqrt_pos.mp h
    have hL : v.length * v.length = v.squaredLength :=
      Real.mul_self_sqrt (le_of_lt hs)
    have hexp : (v.divScalar v.length).squaredLength =
        v.squaredLength / (v.length * v.length) := by
      simp only [Vec4.divScalar, Vec4.squaredLength]
      ring
    rw [Vec4.normalized, if_pos h, Vec4.length, hexp, hL,
      div_self (ne_of_gt hs), Real.sqrt_one]
  · rw [Vec4.normalized, if_neg (by rw [h]; exact lt_irrefl 0)]

/-- C8 witness: the 3-4-5 vector normalizes to unit length on every arity, and
the zero vector is returned unchanged. -/
theorem normalized_unit_or_zero_witness :
    ((⟨3, 4⟩ : Vec2 ℝ).normalized.length = 1) ∧
    ((⟨0, 0⟩ : Vec2 ℝ).normalized = ⟨0, 0⟩) ∧
    ((⟨0, 3, 4⟩ : Vec3 ℝ).normalized.length = 1) ∧
    ((⟨0, 0, 0⟩ : Vec3 ℝ).normalized = ⟨0, 0, 0⟩) ∧
    ((⟨0, 0, 3, 4⟩ : Vec4 ℝ).normalized.length = 1) ∧
    ((⟨0, 0, 0, 0⟩ : Vec4 ℝ).normalized = ⟨0, 0, 0, 0⟩) :=
  ⟨(normalized_unit_or_zero.1 ⟨3, 4⟩).1
      (by rw [Vec2.length]; exact Real.sqrt_pos.mpr (by norm_num [Vec2.squaredLength])),
   (normalized_unit_or_zero.1 ⟨0, 0⟩).2
      (by rw [Vec2.length]; norm_num [Vec2.squaredLength]),
   (normalized_unit_or_zero.2.1 ⟨0, 3, 4⟩).1
      (by rw [Vec3.length]; exact Real.sqrt_pos.mpr (by norm_num [Vec3.squaredLength])),
   (normalized_unit_or_zero.2.1 ⟨0, 0, 0⟩).2
      (by rw [Vec3.length]; norm_num [Vec3.squaredLength]),
   (normalized_unit_or_zero.2.2 ⟨0, 0, 3, 4⟩).1
      (by rw [Vec4.length]; exact Real.sqrt_pos.mpr (by norm_num [Vec4.squaredLength])),
   (normalized_unit_or_zero.2.2 ⟨0, 0, 0, 0⟩).2
      (by rw [Vec4.length]; norm_num [Vec4.squaredLength])⟩

/-- C3 counterexample: with the spec-modelled `refract`, at eta = 1 and the
unit normal N = (0,0,1), the incident vector I = (0,0,1) — which points along
the normal, so cosI = −dot(N, I) = −1 — is NOT returned unchanged: the result
is (0,0,−1). -/
theorem refract_eta_one_not_always_identity :
    (Vec3.squaredLength (⟨0, 0, 1⟩ : Vec3 ℝ) = 1) ∧
    refract ⟨0, 0, 1⟩ ⟨0, 0, 1⟩ 1 ≠ ⟨0, 0, 1⟩ := by
  constructor
  · norm_num [Vec3.squaredLength]
  · have hval : refract (⟨0, 0, 1⟩ : Vec3 ℝ) ⟨0, 0, 1⟩ 1 = ⟨0, 0, -1⟩ := by
      rw [refract]
      norm_num [dot3, scalarMul, Vec3.add, Real.sqrt_one]
    intro hcontra
    rw [hval] at hcontra
    have := congrArg Vec3.z hcontra
    norm_num at this

/-- C3 (amended, spec-modelled): whenever sin²T = eta²·(1−cosI²) with
cosI = −dot(N, I) exceeds 1 (total internal reflection), `refract` returns
exactly `reflect(I, N)`; `refract` is a total function of its inputs (in this
real-number model every result is a finite vector, and no failure is
signalled); and at eta = 1.0 it returns the incident vector unchanged whenever
the incident vector points against the normal (dot(N, I) ≤ 0, the regime
exercised by the tests). -/
theorem refract_tir_and_eta_one :
    (∀ (I N : Vec3 ℝ) (eta : ℝ),
      1 < eta ^ 2 * (1 - (-(dot3 N I)) ^ 2) → refract I N eta = reflect I N) ∧
    (∀ I N : Vec3 ℝ, dot3 N I ≤ 0 → refract I N 1 = I) := by
  constructor
  · intro I N eta h
    rw [refract, if_pos h]
  · intro I N h
    have hcos : (0 : ℝ) ≤ -(dot3 N I) := by linarith
    have hc : ¬(1 < (1 : ℝ) ^ 2 * (1 - (-(dot3 N I)) ^ 2)) := by
      nlinarith [sq_nonneg (dot3 N I)]
    rw [refract, if_neg hc]
    have h1 : 1 - (1 : ℝ) ^ 2 * (1 - (-(dot3 N I)) ^ 2) = (-(dot3 N I)) ^ 2 := by
      ring
    rw [h1, Real.sqrt_sq hcos]
    cases I
    simp [scalarMul, Vec3.add]

/-- C3 witness: a concrete total-internal-reflection input yields the
reflection vector, and the test suite's eta = 1 input (0,0,−1) against normal
(0,0,1) passes through unchanged. -/
theorem refract_tir_and_eta_one_witness :
    (refract ⟨0, 1, 0⟩ ⟨0, 0, 1⟩ 2 = reflect ⟨0, 1, 0⟩ ⟨0, 0, 1⟩) ∧
    (refract ⟨0, 0, -1⟩ ⟨0, 0, 1⟩ 1 = ⟨0, 0, -1⟩) :=
  ⟨refract_tir_and_eta_one.1 _ _ 2 (by norm_num [dot3]),
   refract_tir_and_eta_one.2 _ _ (by norm_num [dot3])⟩

end linalg
